import Mathlib

/-!
Shallow embedding of the authorization / token-lifecycle core of the
clonememoria backend (FastAPI + Supabase + Redis), covering:

* `backend/core/security.py` — JWT mint/decode primitives,
* `backend/services/token_service.py` — token pair issuance, rotation,
  revocation, blacklist consultation,
* `backend/services/rbac_service.py` and `backend/api/rbac_middleware.py` —
  workspace RBAC checks and the route-level enforcement dependency,
* `backend/services/redis_rate_limit_service.py` and
  `backend/api/redis_rate_limit_middleware.py` — three-window rate limiting
  and the middleware check-then-increment pipeline,
* `backend/api/routes/auth.py` / `auth_enterprise.py` — the login handlers.

Modelling conventions: wall-clock instants are `Nat` seconds; JWTs are the
structure `Jwt` of their decoded claims plus a signature-validity bit
(`jwt.encode` is deterministic, so a token is identified with its claim set);
SHA-256 (`hash_token`) is modelled as an injective map, i.e. rows are keyed by
the token value itself; database and Redis calls that can raise in Python are
driven by explicit environment flags (`*_ok : Bool`, or `Except Unit` valued
oracles), a `false`/`.error` outcome meaning the call raised.  Python
exception handlers become the corresponding `match`/`if` fallbacks.
-/

/-! ## JWT primitives (`backend/core/security.py`) -/

/-- A decoded JWT claim set.  `typ` is the `type` claim (`none` when absent),
`sigValid` records whether `jwt.decode` accepts the signature. -/
structure Jwt where
  sub : Option String
  exp : Nat
  typ : Option String
  sigValid : Bool
deriving DecidableEq, Repr

def ACCESS_TOKEN_EXPIRE_SECONDS : Nat := 1800

def REFRESH_TOKEN_EXPIRE_DAYS : Nat := 30

def SECONDS_PER_DAY : Nat := 86400

/-- `create_access_token`: payload `{sub, exp = now + 30min}`, no `type` claim. -/
def create_access_token (now : Nat) (sub : String) : Jwt :=
  { sub := some sub, exp := now + ACCESS_TOKEN_EXPIRE_SECONDS, typ := none, sigValid := true }

/-- `create_refresh_token`: payload `{sub, exp = now + 30d, type = "refresh"}`. -/
def create_refresh_token (now : Nat) (sub : String) : Jwt :=
  { sub := some sub, exp := now + REFRESH_TOKEN_EXPIRE_DAYS * SECONDS_PER_DAY,
    typ := some "refresh", sigValid := true }

/-- SHA-256 of the raw token, modelled as an injective map: the "hash" is the
token itself. -/
def hash_token (t : Jwt) : Jwt := t

/-- `decode_access_token`: `jwt.decode` verifies signature and `exp`, then the
handler rejects a missing `sub`.  Returns `none` when the Python code raises. -/
def decode_access_token (now : Nat) (t : Jwt) : Option Jwt :=
  if t.sigValid = true ∧ now < t.exp ∧ t.sub ≠ none then some t else none

/-- `decode_refresh_token`: signature and claim-expiry verification plus the
`type = "refresh"` and `sub` presence checks.  `none` models the raised
`HTTPException(401, "Invalid refresh token")`. -/
def decode_refresh_token (now : Nat) (t : Jwt) : Option Jwt :=
  if t.sigValid = true ∧ now < t.exp ∧ t.typ = some "refresh" ∧ t.sub ≠ none then
    some t
  else none

/-! ## Token store (`refresh_tokens`, `token_blacklist` tables) -/

/-- A `refresh_tokens` row as inserted by `TokenService.create_token_pair`. -/
structure RefreshRow where
  user_id : String
  token_hash : Jwt
  expires_at : Nat
  device_info : Option String
  ip_address : Option String
  user_agent : Option String
  revoked_at : Option Nat
deriving DecidableEq, Repr

/-- A `token_blacklist` row as inserted by `TokenService.revoke_token`. -/
structure BlacklistRow where
  token_hash : Jwt
  user_id : Option String
  expires_at : Nat
  reason : String
deriving DecidableEq, Repr

structure TokenDb where
  refresh_tokens : List RefreshRow
  token_blacklist : List BlacklistRow
deriving DecidableEq, Repr

/-- Outcome flags for the store calls a `TokenService` method performs; a
`false` flag means the corresponding call raises. -/
structure TokenEnv where
  blacklist_rpc_ok : Bool
  insert_rt_ok : Bool
  insert_bl_ok : Bool
  select_rt_ok : Bool
  update_rt_ok : Bool
  log_auth_ok : Bool
deriving DecidableEq, Repr

/-- Errors surfaced by `TokenService.refresh_access_token` (each re-raised by
its `except` block): the four explicit `raise` sites plus propagated store
exceptions. -/
inductive RefreshError
  | invalidToken
  | revokedToken
  | unknownToken
  | expiredToken
  | dbError
deriving DecidableEq, Repr

structure TokenPair where
  access_token : Jwt
  refresh_token : Jwt
  token_type : String
  expires_in : Nat
deriving DecidableEq, Repr

def exceptIsOk : Except ε α → Bool
  | .ok _ => true
  | .error _ => false

/-- `TokenService.create_token_pair`: mint the pair, insert one
`refresh_tokens` row (hash-keyed, `revoked_at` null).  On an insert failure the
exception propagates (`.error`) and no row is written. -/
def create_token_pair (env : TokenEnv) (db : TokenDb) (now : Nat) (user_id : String)
    (ip_address user_agent device_info : Option String) :
    Except Unit TokenPair × TokenDb :=
  let refresh_token_jwt := create_refresh_token now user_id
  let row : RefreshRow :=
    { user_id := user_id, token_hash := hash_token refresh_token_jwt,
      expires_at := now + REFRESH_TOKEN_EXPIRE_DAYS * SECONDS_PER_DAY,
      device_info := device_info, ip_address := ip_address, user_agent := user_agent,
      revoked_at := none }
  if env.insert_rt_ok then
    (.ok { access_token := create_access_token now user_id,
           refresh_token := refresh_token_jwt, token_type := "bearer", expires_in := 1800 },
     { db with refresh_tokens := db.refresh_tokens ++ [row] })
  else (.error (), db)

/-- Modelled from the spec: the Postgres RPC `is_token_blacklisted` is not in
`src/`; per §3 a blacklist entry revokes a token iff it matches the hash and is
not itself expired. -/
def rpc_is_token_blacklisted (db : TokenDb) (now : Nat) (h : Jwt) : Bool :=
  db.token_blacklist.any fun e => decide (e.token_hash = h ∧ now < e.expires_at)

/-- `TokenService.is_token_blacklisted`: calls the RPC; the `except` block
swallows any store error and returns `False`. -/
def is_token_blacklisted (env : TokenEnv) (db : TokenDb) (now : Nat) (h : Jwt) : Bool :=
  if env.blacklist_rpc_ok then rpc_is_token_blacklisted db now h else false

/-- The `update ... set revoked_at = now where token_hash = h` statement used
by rotation and by `revoke_token` (no `revoked_at is null` filter). -/
def revokeByHash (now : Nat) (h : Jwt) (rows : List RefreshRow) : List RefreshRow :=
  rows.map fun r => if r.token_hash = h then { r with revoked_at := some now } else r

/-- The `select * where token_hash = h and revoked_at is null` + `maybeSingle`
lookup. -/
def findActiveRow (rows : List RefreshRow) (h : Jwt) : Option RefreshRow :=
  rows.find? fun r => decide (r.token_hash = h ∧ r.revoked_at = none)

/-- `TokenService.refresh_access_token`, steps in source order: decode, hash,
blacklist check, active-row lookup, row-expiry check, `create_token_pair`,
then revoke the old row.  The returned store reflects the writes performed up
to the point of failure (a failed update still leaves the freshly inserted
row, matching the Python control flow). -/
def refresh_access_token (env : TokenEnv) (db : TokenDb) (now : Nat)
    (refresh_token : Jwt) (ip_address user_agent : Option String) :
    Except RefreshError TokenPair × TokenDb :=
  match decode_refresh_token now refresh_token with
  | none => (.error .invalidToken, db)
  | some payload =>
    match payload.sub with
    | none => (.error .invalidToken, db)
    | some user_id =>
      let token_hash := hash_token refresh_token
      if is_token_blacklisted env db now token_hash then
        (.error .revokedToken, db)
      else if env.select_rt_ok = false then
        (.error .dbError, db)
      else
        match findActiveRow db.refresh_tokens token_hash with
        | none => (.error .unknownToken, db)
        | some stored_token =>
          if stored_token.expires_at < now then
            (.error .expiredToken, db)
          else
            match create_token_pair env db now user_id ip_address user_agent none with
            | (.error _, _) => (.error .dbError, db)
            | (.ok pair, db1) =>
              if env.update_rt_ok then
                (.ok pair,
                 { db1 with refresh_tokens := revokeByHash now token_hash db1.refresh_tokens })
              else (.error .dbError, db1)

/-- `TokenService.revoke_token`: hash, decode, insert a blacklist row, revoke
any matching `refresh_tokens` rows.  Every exception is caught and turns into
`false`; the store reflects the writes completed before the failure. -/
def revoke_token (env : TokenEnv) (db : TokenDb) (now : Nat) (token : Jwt)
    (reason : String) : Bool × TokenDb :=
  let token_hash := hash_token token
  match decode_refresh_token now token with
  | none => (false, db)
  | some payload =>
    let entry : BlacklistRow :=
      { token_hash := token_hash, user_id := payload.sub,
        expires_at := payload.exp, reason := reason }
    if env.insert_bl_ok = false then (false, db)
    else
      let db1 := { db with token_blacklist := db.token_blacklist ++ [entry] }
      if env.update_rt_ok = false then (false, db1)
      else (true, { db1 with refresh_tokens := revokeByHash now token_hash db1.refresh_tokens })

/-- `TokenService.revoke_all_user_tokens`: bulk update of the user's active
rows; on a store error the `except` block returns `0`. -/
def revoke_all_user_tokens (env : TokenEnv) (db : TokenDb) (now : Nat)
    (user_id : String) : Nat × TokenDb :=
  if env.update_rt_ok = false then (0, db)
  else
    let count :=
      (db.refresh_tokens.filter fun r =>
        decide (r.user_id = user_id ∧ r.revoked_at = none)).length
    (count,
     { db with refresh_tokens := db.refresh_tokens.map fun r =>
         if r.user_id = user_id ∧ r.revoked_at = none then
           { r with revoked_at := some now }
         else r })

/-! ## RBAC (`backend/services/rbac_service.py`, `backend/api/rbac_middleware.py`) -/

/-- A `users` table row (fields read by the auth/RBAC/rate-limit core). -/
structure UserRow where
  id : String
  email : String
  password_hash : String
  billing_plan : String
  is_platform_admin : Bool
deriving DecidableEq, Repr

/-- A `roles` catalog row. -/
structure RoleRow where
  name : String
  hierarchy_level : Nat
deriving DecidableEq, Repr

/-- A `space_members` row; `role_name` stands for the `role_id` foreign key,
resolved through the `roles(name, hierarchy_level)` join. -/
structure MemberRow where
  user_id : String
  space_id : String
  role_name : String
deriving DecidableEq, Repr

structure RbacDb where
  users : List UserRow
  roles : List RoleRow
  space_members : List MemberRow
deriving DecidableEq, Repr

/-- Outcome flags for the store calls of `RBACService`; `false` means the call
raises. -/
structure RbacEnv where
  rpc_ok : Bool
  members_ok : Bool
  roles_ok : Bool
  users_ok : Bool
deriving DecidableEq, Repr

/-- `RBACPermissionResult` (`backend/schemas/rbac.py`). -/
structure RBACPermissionResult where
  allowed : Bool
  user_role : Option String := none
  user_role_level : Option Nat := none
  required_role_level : Option Nat := none
  reason : Option String := none
deriving DecidableEq, Repr

def findMember (db : RbacDb) (uid sid : String) : Option MemberRow :=
  db.space_members.find? fun m => decide (m.user_id = uid ∧ m.space_id = sid)

def findRole (db : RbacDb) (name : String) : Option RoleRow :=
  db.roles.find? fun r => decide (r.name = name)

/-- Modelled from the spec: the Postgres RPC `has_workspace_role` is not in
`src/`; per §4.2 it resolves the member's role level and the required role's
level and returns `user_role_level ≥ required_role_level`, `false` when the
user has no membership row. -/
def rpc_has_workspace_role (db : RbacDb) (uid sid required_role : String) : Bool :=
  match findMember db uid sid with
  | none => false
  | some m =>
    match findRole db m.role_name, findRole db required_role with
    | some ur, some rr => decide (rr.hierarchy_level ≤ ur.hierarchy_level)
    | _, _ => false

/-- The exception-text detail of the Python `except` branch is opaque here;
`"Permission check error"` stands for `f"Permission check error: {e}"`. -/
def permissionCheckErrorResult : RBACPermissionResult :=
  { allowed := false, reason := some "Permission check error" }

/-- `RBACService.check_permission`: the `space_id is None` guard runs before
any store access; then the RPC, the membership join and the role lookup in
source order, any raising call diverting to the fail-closed `except` result. -/
def check_permission (env : RbacEnv) (db : RbacDb) (user_id : String)
    (space_id : Option String) (required_role : String) : RBACPermissionResult :=
  match space_id with
  | none => { allowed := false, reason := some "No workspace specified" }
  | some sid =>
    if env.rpc_ok = false then permissionCheckErrorResult
    else
      let allowed := rpc_has_workspace_role db user_id sid required_role
      if env.members_ok = false then permissionCheckErrorResult
      else
        let memberRole : Option RoleRow :=
          match findMember db user_id sid with
          | none => none
          | some m => findRole db m.role_name
        let user_role := memberRole.map RoleRow.name
        let user_role_level := memberRole.map RoleRow.hierarchy_level
        if env.roles_ok = false then permissionCheckErrorResult
        else
          let required_role_level := (findRole db required_role).map RoleRow.hierarchy_level
          let reason : Option String :=
            if allowed then none
            else
              match user_role with
              | some u =>
                some ("User role '" ++ u ++ "' is insufficient for required role '"
                      ++ required_role ++ "'")
              | none => some "User is not a member of this workspace"
          { allowed := allowed, user_role := user_role, user_role_level := user_role_level,
            required_role_level := required_role_level, reason := reason }

/-- `RBACService.is_platform_admin`: flag lookup on `users`; store errors and
missing rows yield `false`. -/
def is_platform_admin (env : RbacEnv) (db : RbacDb) (user_id : String) : Bool :=
  if env.users_ok = false then false
  else
    match db.users.find? (fun u => decide (u.id = user_id)) with
    | some u => u.is_platform_admin
    | none => false

structure HttpError where
  status_code : Nat
  detail : String
deriving DecidableEq, Repr

/-- `RBACDependency.__call__` (`backend/api/rbac_middleware.py`).  `uuid_ok`
models whether `UUID(current_user['id'])` parses; its failure is caught by the
outermost handler and becomes the 500 response.  Success returns the caller's
user id (standing for `current_user`). -/
def rbac_dependency_call (required_role : String) (require_platform_admin : Bool)
    (env : RbacEnv) (uuid_ok : Bool) (db : RbacDb)
    (space_id : Option String) (current_user_id : String) : Except HttpError String :=
  if uuid_ok = false then
    .error { status_code := 500, detail := "Permission check failed" }
  else if require_platform_admin then
    if is_platform_admin env db current_user_id then .ok current_user_id
    else .error { status_code := 403, detail := "Platform admin access required" }
  else
    match space_id with
    | none => .error { status_code := 400, detail := "Workspace ID required" }
    | some sid =>
      let pr := check_permission env db current_user_id (some sid) required_role
      if pr.allowed then .ok current_user_id
      else
        .error { status_code := 403,
                 detail := pr.reason.getD ("Requires " ++ required_role ++ " role or higher") }

/-! ## Rate limiting (`backend/services/redis_rate_limit_service.py`) -/

/-- A `rate_limit_configs` row with `role` null (the service filters
`is_('role', 'null')`). -/
structure RateLimitConfigRow where
  plan : String
  role : Option String
  endpoint_pattern : String
  requests_per_minute : Nat
  requests_per_hour : Nat
  requests_per_day : Nat
deriving DecidableEq, Repr

structure RateDb where
  users : List UserRow
  rate_limit_configs : List RateLimitConfigRow
deriving DecidableEq, Repr

structure PlanLimits where
  per_minute : Nat
  per_hour : Nat
  per_day : Nat
deriving DecidableEq, Repr

def DEFAULT_LIMITS : PlanLimits := { per_minute := 10, per_hour := 100, per_day := 1000 }

/-- Python `str.startswith`, computed structurally over the character
lists. -/
def strStartsWith (s pre : String) : Bool :=
  pre.data.isPrefixOf s.data

/-- Python `str.endswith`, computed structurally over the character lists. -/
def strEndsWith (s suf : String) : Bool :=
  suf.data.isSuffixOf s.data

/-- Python slicing `s[:-n]`. -/
def strDropRight (s : String) (n : Nat) : String :=
  String.mk (s.data.take (s.data.length - n))

/-- `RedisRateLimitService._matches_pattern`. -/
def matches_pattern (endpoint pat : String) : Bool :=
  if strEndsWith pat "/*" then strStartsWith endpoint (strDropRight pat 2)
  else endpoint == pat

/-- `RedisRateLimitService._get_plan_limits`: plan from `users.billing_plan`
(`'free'` when absent), first matching null-role config row, conservative
default `10/100/1000` both as fallback and in the `except` branch
(`db_ok = false` meaning the Supabase calls raised). -/
def get_plan_limits (db_ok : Bool) (db : RateDb) (user_id endpoint : String) : PlanLimits :=
  if db_ok = false then DEFAULT_LIMITS
  else
    let plan :=
      match db.users.find? (fun u => decide (u.id = user_id)) with
      | some u => u.billing_plan
      | none => "free"
    match db.rate_limit_configs.find? (fun c =>
        decide (c.plan = plan ∧ c.role = none) && matches_pattern endpoint c.endpoint_pattern) with
    | some c =>
      { per_minute := c.requests_per_minute, per_hour := c.requests_per_hour,
        per_day := c.requests_per_day }
    | none => DEFAULT_LIMITS

/-- `RedisRateLimitService._get_key`. -/
def get_key (user_id endpoint window : String) : String :=
  "ratelimit:" ++ window ++ ":" ++ user_id ++ ":" ++ endpoint

/-- The shape of the dict `check_rate_limit` returns (absent keys are
`none`). -/
structure RateLimitResult where
  allowed : Bool
  current_count : Nat
  limit_per_minute : Option Nat := none
  limit_per_hour : Option Nat := none
  limit_per_day : Option Nat := none
  reset_at : Option Nat := none
  window : Option String := none
  reason : Option String := none
deriving DecidableEq, Repr

/-- Environment of a `check_rate_limit` call: `enabled` is
`redis_client is not None`; `get`/`ttl` are the Redis reads, an `.error`
meaning the command raised; `db_ok` drives `_get_plan_limits`. -/
structure RLEnv where
  enabled : Bool
  get : String → Except Unit (Option Nat)
  ttl : String → Except Unit Int
  db_ok : Bool

/-- Body of the `try` block of `check_rate_limit`: read the three counters
up front, then compare minute, hour, day in that order; the violated window's
branch reads that window's TTL and reports that window's count and reset. -/
def check_rate_limit_body (env : RLEnv) (db : RateDb) (now : Nat)
    (user_id endpoint : String) : Except Unit RateLimitResult :=
  let limits := get_plan_limits env.db_ok db user_id endpoint
  match env.get (get_key user_id endpoint "minute") with
  | .error e => .error e
  | .ok vm =>
    match env.get (get_key user_id endpoint "hour") with
    | .error e => .error e
    | .ok vh =>
      match env.get (get_key user_id endpoint "day") with
      | .error e => .error e
      | .ok vd =>
        let count_minute := vm.getD 0
        let count_hour := vh.getD 0
        let count_day := vd.getD 0
        if limits.per_minute ≤ count_minute then
          match env.ttl (get_key user_id endpoint "minute") with
          | .error e => .error e
          | .ok t =>
            .ok { allowed := false, current_count := count_minute,
                  limit_per_minute := some limits.per_minute,
                  limit_per_hour := some limits.per_hour,
                  limit_per_day := some limits.per_day,
                  reset_at := some (now + (max t 0).toNat), window := some "minute" }
        else if limits.per_hour ≤ count_hour then
          match env.ttl (get_key user_id endpoint "hour") with
          | .error e => .error e
          | .ok t =>
            .ok { allowed := false, current_count := count_hour,
                  limit_per_minute := some limits.per_minute,
                  limit_per_hour := some limits.per_hour,
                  limit_per_day := some limits.per_day,
                  reset_at := some (now + (max t 0).toNat), window := some "hour" }
        else if limits.per_day ≤ count_day then
          match env.ttl (get_key user_id endpoint "day") with
          | .error e => .error e
          | .ok t =>
            .ok { allowed := false, current_count := count_day,
                  limit_per_minute := some limits.per_minute,
                  limit_per_hour := some limits.per_hour,
                  limit_per_day := some limits.per_day,
                  reset_at := some (now + (max t 0).toNat), window := some "day" }
        else
          .ok { allowed := true, current_count := count_minute,
                limit_per_minute := some limits.per_minute,
                limit_per_hour := some limits.per_hour,
                limit_per_day := some limits.per_day,
                reset_at := some (now + 60) }

/-- `RedisRateLimitService.check_rate_limit`: the disabled short-circuit, then
the `try` body with both `except` branches collapsing to the fail-open result
(the Python `redis_error` / `check_error` reasons are not distinguished). -/
def check_rate_limit (env : RLEnv) (db : RateDb) (now : Nat)
    (user_id endpoint : String) : RateLimitResult :=
  if env.enabled = false then
    { allowed := true, current_count := 0, limit_per_minute := some 999999,
      reason := some "rate_limiting_disabled" }
  else
    match check_rate_limit_body env db now user_id endpoint with
    | .ok r => r
    | .error _ => { allowed := true, current_count := 0, reason := some "redis_error" }

/-! ## Rate-limit middleware (`backend/api/redis_rate_limit_middleware.py`) -/

/-- Python `str.isdigit` restricted to ASCII digits, the shape of numeric path
ids. -/
def isNumericStr (s : String) : Bool :=
  s.data ≠ [] && s.data.all Char.isDigit

/-- `path.split("/")` for the one-character separator the middleware uses,
implemented structurally over the character list (same result as Python
`str.split('/')`: empty segments are kept). -/
def splitSlashAux : List Char → List Char → List String
  | [], acc => [String.mk acc.reverse]
  | c :: cs, acc =>
    if c = '/' then String.mk acc.reverse :: splitSlashAux cs []
    else splitSlashAux cs (c :: acc)

def splitSlash (s : String) : List String :=
  splitSlashAux s.data []

/-- One loop iteration of `_normalize_endpoint`: empty segments are dropped,
UUID/numeric segments become `"*"`, others pass through.  `is_uuid` stands for
`_is_uuid` (a `uuid.UUID` parse attempt), kept abstract. -/
def normalizeSeg (is_uuid : String → Bool) (part : String) : Option String :=
  if part ≠ "" ∧ is_uuid part = false ∧ isNumericStr part = false then some part
  else if part ≠ "" then some "*"
  else none

/-- `RedisRateLimitMiddleware._normalize_endpoint`.  Note the Python
conditional expression binds the whole string:
`("/" + "/".join(normalized) + "/*") if normalized else path`. -/
def normalize_endpoint (is_uuid : String → Bool) (path : String) : String :=
  let normalized := (splitSlash path).filterMap (normalizeSeg is_uuid)
  if normalized ≠ [] then "/" ++ String.intercalate "/" normalized ++ "/*" else path

/-- The Redis counter keyspace, as an association list (first binding wins,
matching a key-value store). -/
abbrev RedisStore := List (String × Nat)

def storeGet : RedisStore → String → Option Nat
  | [], _ => none
  | (k', v) :: rest, k => if k' = k then some v else storeGet rest k

/-- `GET key` followed by `int(... or 0)`. -/
def storeGetD (s : RedisStore) (k : String) : Nat :=
  (storeGet s k).getD 0

/-- Redis `INCR`: bump an existing binding, or create it at 1. -/
def storeIncr : RedisStore → String → RedisStore
  | [], k => [(k, 1)]
  | (k', v) :: rest, k =>
    if k' = k then (k', v + 1) :: rest else (k', v) :: storeIncr rest k

/-- TTL expiry of a key (Redis deletes it; the counter restarts at 0). -/
def storeDel (s : RedisStore) (k : String) : RedisStore :=
  s.filter fun p => decide (p.fst ≠ k)

/-- The `check_rate_limit` environment induced by a concrete counter store:
`up = false` means every Redis command raises (store unreachable).  TTL
bookkeeping is not tracked; `ttlv` is whatever `TTL` returns when up. -/
def envOfStore (up : Bool) (db_ok : Bool) (ttlv : Int) (s : RedisStore) : RLEnv :=
  { enabled := true,
    get := fun k => if up then .ok (storeGet s k) else .error (),
    ttl := fun _ => if up then .ok ttlv else .error (),
    db_ok := db_ok }

/-- `RedisRateLimitService.increment_rate_limit`: a pipeline of three `INCR`
(+`EXPIRE`) commands; disabled → no-op returning `True`, a raising pipeline →
`False` with no effect. -/
def increment_rate_limit (enabled up : Bool) (s : RedisStore) (user_id endpoint : String) :
    Bool × RedisStore :=
  if enabled = false then (true, s)
  else if up = false then (false, s)
  else
    (true,
     storeIncr (storeIncr (storeIncr s (get_key user_id endpoint "minute"))
         (get_key user_id endpoint "hour"))
       (get_key user_id endpoint "day"))

inductive DispatchOutcome
  | passedThrough
  | rejected (r : RateLimitResult)
  | accepted (r : RateLimitResult)
deriving DecidableEq, Repr

def bypass_routes : List String := ["/api/health", "/api/auth/login", "/api/auth/register"]

/-- `RedisRateLimitMiddleware.dispatch`.  `user` is the best-effort result of
`_get_user_id_from_request` (`none` skips limiting); `log_db_ok` models the
`get_db()` call of the violation-logging block, whose failure is caught by the
generic handler and turns the request into a plain pass-through.  A rejected
request raises the 429 before `increment_rate_limit` is reached. -/
def dispatch (is_uuid : String → Bool) (mw_enabled svc_enabled up db_ok log_db_ok : Bool)
    (db : RateDb) (ttlv : Int) (s : RedisStore) (now : Nat) (path : String)
    (user : Option String) : DispatchOutcome × RedisStore :=
  if mw_enabled = false ∨ svc_enabled = false then (.passedThrough, s)
  else if strStartsWith path "/api/" = false then (.passedThrough, s)
  else if path ∈ bypass_routes then (.passedThrough, s)
  else
    match user with
    | none => (.passedThrough, s)
    | some uid =>
      let endpoint := normalize_endpoint is_uuid path
      let r := check_rate_limit (envOfStore up db_ok ttlv s) db now uid endpoint
      if r.allowed = false then
        if log_db_ok = false then (.passedThrough, s) else (.rejected r, s)
      else
        let step := increment_rate_limit svc_enabled up s uid endpoint
        (.accepted r, step.snd)

/-- Counter stores reachable by a sequence of middleware dispatches of one
fixed request shape (fixed user, path, plan configuration) interleaved with
TTL expiries, starting from an empty keyspace. -/
inductive RLReachable (is_uuid : String → Bool) (db_ok : Bool) (db : RateDb)
    (path uid : String) : RedisStore → Prop
  | init : RLReachable is_uuid db_ok db path uid []
  | step (s : RedisStore) (mw svc up log_db_ok : Bool) (ttlv : Int) (now : Nat) :
      RLReachable is_uuid db_ok db path uid s →
      RLReachable is_uuid db_ok db path uid
        (dispatch is_uuid mw svc up db_ok log_db_ok db ttlv s now path (some uid)).snd
  | expire (s : RedisStore) (k : String) :
      RLReachable is_uuid db_ok db path uid s →
      RLReachable is_uuid db_ok db path uid (storeDel s k)

/-! ## Login handlers (`backend/api/routes/auth.py`, `auth_enterprise.py`) -/

/-- The simple `POST /auth/login` handler (`auth.py`): email lookup
(`limit(1)`), then `verify_password(password, row.password_hash)`; both
credential failures raise the same 401.  `verify` stands for the bcrypt
verifier. -/
def login (verify : String → String → Bool) (users : List UserRow)
    (email password : String) (now : Nat) : Except HttpError Jwt :=
  match users.find? (fun u => decide (u.email = email)) with
  | none => .error { status_code := 401, detail := "Incorrect email or password" }
  | some user =>
    if verify password user.password_hash then .ok (create_access_token now user.id)
    else .error { status_code := 401, detail := "Incorrect email or password" }

/-- Failures of the enterprise login: the deliberate credential 401s versus
exceptions of the later token-issuance / audit-log calls (500-class). -/
inductive LoginFailure
  | http (e : HttpError)
  | infra
deriving DecidableEq, Repr

/-- The enterprise `POST /auth/login` handler (`auth_enterprise.py`): same two
credential checks and 401s, then `TokenService.create_token_pair` and the
`log_auth_event` RPC, whose exceptions propagate. -/
def login_enterprise (verify : String → String → Bool) (env : TokenEnv) (db : TokenDb)
    (users : List UserRow) (email password : String) (now : Nat) :
    Except LoginFailure (TokenPair × TokenDb) :=
  match users.find? (fun u => decide (u.email = email)) with
  | none => .error (.http { status_code := 401, detail := "Incorrect email or password" })
  | some user =>
    if verify password user.password_hash = false then
      .error (.http { status_code := 401, detail := "Incorrect email or password" })
    else
      match create_token_pair env db now user.id none none none with
      | (.error _, _) => .error .infra
      | (.ok pair, db1) =>
        if env.log_auth_ok = false then .error .infra
        else .ok (pair, db1)

/-- Row-level refresh-token state machine: a table transition preserves the
revoked state of every row position — no operation reverts `revoked_at` to
null (operations only append rows or rewrite `revoked_at` to a timestamp). -/
def preservesRevocation (before after : List RefreshRow) : Prop :=
  before.length ≤ after.length ∧
    ∀ i r r', before.get? i = some r → after.get? i = some r' →
      r.revoked_at ≠ none → r'.revoked_at ≠ none


/-- Positionwise relation on path segments: equal, or both nonempty and
id-like (UUID or purely numeric) — the shape C7 quantifies over. -/
def segRelated (is_uuid : String → Bool) (a b : String) : Bool :=
  a == b ||
    (decide (a ≠ "") && decide (b ≠ "") &&
      (is_uuid a || isNumericStr a) && (is_uuid b || isNumericStr b))

def segsRelated (is_uuid : String → Bool) : List String → List String → Bool
  | [], [] => true
  | x :: xs, y :: ys => segRelated is_uuid x y && segsRelated is_uuid xs ys
  | _, _ => false

/-! ## Theorems -/

/-- A successful `decode_refresh_token` returns the token itself, with a
present `sub` claim. -/
theorem decode_refresh_token_isSome {now : Nat} {tok : Jwt}
    (h : (decode_refresh_token now tok).isSome = true) :
    decode_refresh_token now tok = some tok ∧ tok.sub ≠ none := by
  unfold decode_refresh_token at h ⊢
  split at h
  · next hc => exact ⟨by rw [if_pos hc], hc.2.2.2⟩
  · simp at h

/-- C2: if the refresh token's hash has a matching (non-expired) blacklist
entry and the blacklist RPC answers, `refresh_access_token` fails with the
revoked-token error and writes nothing — for every content of the
`refresh_tokens` table (in particular a still-active row) and every outcome of
the stored-row lookup, since the blacklist check runs first. -/
theorem blacklist_precedence (env : TokenEnv) (db : TokenDb) (now : Nat) (tok : Jwt)
    (ip ua : Option String)
    (hdec : (decode_refresh_token now tok).isSome = true)
    (hrpc : env.blacklist_rpc_ok = true)
    (hbl : rpc_is_token_blacklisted db now (hash_token tok) = true) :
    refresh_access_token env db now tok ip ua = (.error .revokedToken, db) := by
  obtain ⟨hd, hsub⟩ := decode_refresh_token_isSome hdec
  obtain ⟨u, hu⟩ := Option.ne_none_iff_exists'.mp hsub
  simp [refresh_access_token, hd, hu, is_token_blacklisted, hrpc, hbl]

/-- Witness for C2: a blacklisted token whose `refresh_tokens` row is still
active is nevertheless refused with the revoked-token error. -/
theorem blacklist_precedence_witness :
    refresh_access_token ⟨true, true, true, true, true, true⟩
      { refresh_tokens :=
          [⟨"u1", ⟨some "u1", 1000, some "refresh", true⟩, 2000, none, none, none, none⟩],
        token_blacklist :=
          [⟨⟨some "u1", 1000, some "refresh", true⟩, some "u1", 1000, "compromised"⟩] }
      10 ⟨some "u1", 1000, some "refresh", true⟩ none none
      = (.error .revokedToken,
         { refresh_tokens :=
             [⟨"u1", ⟨some "u1", 1000, some "refresh", true⟩, 2000, none, none, none, none⟩],
           token_blacklist :=
             [⟨⟨some "u1", 1000, some "refresh", true⟩, some "u1", 1000, "compromised"⟩] }) :=
  blacklist_precedence _ _ _ _ _ _ (by decide) (by decide) (by decide)

/-- C3 counterexample: the claim "if the blacklist lookup inside
`refresh_access_token` errors, the refresh request is rejected" is false.
Here the blacklist RPC raises (`blacklist_rpc_ok = false`) and the token even
has a matching blacklist entry, yet the refresh succeeds: the `except` block
of `is_token_blacklisted` swallows the error and reports "not blacklisted". -/
theorem blacklist_error_fail_open_counterexample :
    exceptIsOk (refresh_access_token ⟨false, true, true, true, true, true⟩
      { refresh_tokens :=
          [⟨"u1", ⟨some "u1", 1000, some "refresh", true⟩, 2000, none, none, none, none⟩],
        token_blacklist :=
          [⟨⟨some "u1", 1000, some "refresh", true⟩, some "u1", 1000, "compromised"⟩] }
      10 ⟨some "u1", 1000, some "refresh", true⟩ none none).fst = true := by decide


/-- A refresh can only fail with the revoked-token error when the blacklist
lookup actually returned `true` (helper for the fail-open direction). -/
theorem refresh_revokedToken_inv (env : TokenEnv) (db : TokenDb) (now : Nat) (tok : Jwt)
    (ip ua : Option String)
    (h : (refresh_access_token env db now tok ip ua).fst = .error .revokedToken) :
    is_token_blacklisted env db now (hash_token tok) = true := by
  by_cases hb : is_token_blacklisted env db now (hash_token tok) = true
  · exact hb
  · exfalso
    unfold refresh_access_token at h
    repeat' split at h
    all_goals (try simp_all)
    all_goals
      cases hfa : findActiveRow db.refresh_tokens (hash_token tok) <;>
        simp only [hfa] at h <;> (try split at h) <;> simp_all

/-- C3 (amended): the RBAC path does fail closed — any erroring store call
inside `check_permission` yields `allowed = false` — but the blacklist lookup
of `refresh_access_token` fails open: when its store call errors,
`is_token_blacklisted` swallows the exception and returns `false`, so the
refresh is never rejected as revoked and instead proceeds to the stored-row
checks. -/
theorem fail_posture_on_store_errors :
    (∀ (env : RbacEnv) (db : RbacDb) (uid : String) (sid : Option String) (role : String),
        env.rpc_ok = false ∨ env.members_ok = false ∨ env.roles_ok = false →
        (check_permission env db uid sid role).allowed = false)
    ∧ (∀ (env : TokenEnv) (db : TokenDb) (now : Nat) (h : Jwt),
        env.blacklist_rpc_ok = false → is_token_blacklisted env db now h = false)
    ∧ (∀ (env : TokenEnv) (db : TokenDb) (now : Nat) (tok : Jwt) (ip ua : Option String),
        env.blacklist_rpc_ok = false →
        (refresh_access_token env db now tok ip ua).fst ≠ .error .revokedToken) := by
  refine ⟨?_, ?_, ?_⟩
  · intro env db uid sid role herr
    match sid with
    | none => rfl
    | some s =>
      rcases herr with h | h | h
      · simp [check_permission, h, permissionCheckErrorResult]
      · cases hr : env.rpc_ok <;>
          simp [check_permission, h, hr, permissionCheckErrorResult]
      · cases hr : env.rpc_ok <;> cases hm : env.members_ok <;>
          simp [check_permission, h, hr, hm, permissionCheckErrorResult]
  · intro env db now h hfail
    simp [is_token_blacklisted, hfail]
  · intro env db now tok ip ua hfail hrev
    have hbl := refresh_revokedToken_inv env db now tok ip ua hrev
    rw [is_token_blacklisted, hfail] at hbl
    simp at hbl

/-- Witness for C3 (amended): a concrete erroring store, denied by the RBAC
check and swallowed by the blacklist lookup. -/
theorem fail_posture_on_store_errors_witness :
    (check_permission ⟨false, true, true, true⟩ ⟨[], [], []⟩ "u" (some "s") "admin").allowed
        = false
    ∧ is_token_blacklisted ⟨false, true, true, true, true, true⟩ ⟨[], []⟩ 0
        ⟨some "u", 9, some "refresh", true⟩ = false :=
  ⟨fail_posture_on_store_errors.1 ⟨false, true, true, true⟩ ⟨[], [], []⟩ "u" (some "s") "admin"
      (Or.inl rfl),
   fail_posture_on_store_errors.2.1 ⟨false, true, true, true, true, true⟩ ⟨[], []⟩ 0
      ⟨some "u", 9, some "refresh", true⟩ rfl⟩

/-- C4: a workspace-scoped `check_permission` with `space_id = None` denies
with the no-workspace reason before any store access (hence independently of
the user's memberships and platform-admin flag); the RBAC dependency answers
400 "Workspace ID required" when `space_id` is absent on a workspace-gated
endpoint; and the platform-admin branch never reads `space_id`. -/
theorem workspace_scoping :
    (∀ (env : RbacEnv) (db : RbacDb) (uid role : String),
        check_permission env db uid none role
          = { allowed := false, reason := some "No workspace specified" })
    ∧ (∀ (role : String) (env : RbacEnv) (db : RbacDb) (uid : String),
        rbac_dependency_call role false env true db none uid
          = .error { status_code := 400, detail := "Workspace ID required" })
    ∧ (∀ (role : String) (env : RbacEnv) (uok : Bool) (db : RbacDb)
          (sid₁ sid₂ : Option String) (uid : String),
        rbac_dependency_call role true env uok db sid₁ uid
          = rbac_dependency_call role true env uok db sid₂ uid) := by
  refine ⟨fun env db uid role => rfl, fun role env db uid => rfl, ?_⟩
  intro role env uok db sid₁ sid₂ uid
  cases uok <;> simp [rbac_dependency_call]

/-- C5: with the counter store answering, `check_rate_limit` evaluates the
windows minute → hour → day and reports the first violated window's name,
count, and reset time; with no violation it allows with the minute counter's
value. -/
theorem rate_limit_window_order (env : RLEnv) (db : RateDb) (now : Nat)
    (uid ep : String) (vm vh vd : Option Nat) (tm th td : Int)
    (hen : env.enabled = true)
    (hm : env.get (get_key uid ep "minute") = .ok vm)
    (hh : env.get (get_key uid ep "hour") = .ok vh)
    (hd : env.get (get_key uid ep "day") = .ok vd)
    (htm : env.ttl (get_key uid ep "minute") = .ok tm)
    (hth : env.ttl (get_key uid ep "hour") = .ok th)
    (htd : env.ttl (get_key uid ep "day") = .ok td) :
    ((get_plan_limits env.db_ok db uid ep).per_minute ≤ vm.getD 0 →
      check_rate_limit env db now uid ep =
        { allowed := false, current_count := vm.getD 0,
          limit_per_minute := some (get_plan_limits env.db_ok db uid ep).per_minute,
          limit_per_hour := some (get_plan_limits env.db_ok db uid ep).per_hour,
          limit_per_day := some (get_plan_limits env.db_ok db uid ep).per_day,
          reset_at := some (now + (max tm 0).toNat), window := some "minute" })
    ∧ (vm.getD 0 < (get_plan_limits env.db_ok db uid ep).per_minute →
       (get_plan_limits env.db_ok db uid ep).per_hour ≤ vh.getD 0 →
      check_rate_limit env db now uid ep =
        { allowed := false, current_count := vh.getD 0,
          limit_per_minute := some (get_plan_limits env.db_ok db uid ep).per_minute,
          limit_per_hour := some (get_plan_limits env.db_ok db uid ep).per_hour,
          limit_per_day := some (get_plan_limits env.db_ok db uid ep).per_day,
          reset_at := some (now + (max th 0).toNat), window := some "hour" })
    ∧ (vm.getD 0 < (get_plan_limits env.db_ok db uid ep).per_minute →
       vh.getD 0 < (get_plan_limits env.db_ok db uid ep).per_hour →
       (get_plan_limits env.db_ok db uid ep).per_day ≤ vd.getD 0 →
      check_rate_limit env db now uid ep =
        { allowed := false, current_count := vd.getD 0,
          limit_per_minute := some (get_plan_limits env.db_ok db uid ep).per_minute,
          limit_per_hour := some (get_plan_limits env.db_ok db uid ep).per_hour,
          limit_per_day := some (get_plan_limits env.db_ok db uid ep).per_day,
          reset_at := some (now + (max td 0).toNat), window := some "day" })
    ∧ (vm.getD 0 < (get_plan_limits env.db_ok db uid ep).per_minute →
       vh.getD 0 < (get_plan_limits env.db_ok db uid ep).per_hour →
       vd.getD 0 < (get_plan_limits env.db_ok db uid ep).per_day →
      check_rate_limit env db now uid ep =
        { allowed := true, current_count := vm.getD 0,
          limit_per_minute := some (get_plan_limits env.db_ok db uid ep).per_minute,
          limit_per_hour := some (get_plan_limits env.db_ok db uid ep).per_hour,
          limit_per_day := some (get_plan_limits env.db_ok db uid ep).per_day,
          reset_at := some (now + 60) }) := by
  refine ⟨?_, ?_, ?_, ?_⟩
  · intro h1
    simp [check_rate_limit, hen, check_rate_limit_body, hm, hh, hd, htm, h1]
  · intro h1 h2
    simp [check_rate_limit, hen, check_rate_limit_body, hm, hh, hd, hth,
      Nat.not_le.mpr h1, h2]
  · intro h1 h2 h3
    simp [check_rate_limit, hen, check_rate_limit_body, hm, hh, hd, htd,
      Nat.not_le.mpr h1, Nat.not_le.mpr h2, h3]
  · intro h1 h2 h3
    simp [check_rate_limit, hen, check_rate_limit_body, hm, hh, hd,
      Nat.not_le.mpr h1, Nat.not_le.mpr h2, Nat.not_le.mpr h3]

/-- Witness for C5: twelve requests against the default `10/minute` limit are
rejected on the minute window with its count and reset time. -/
theorem rate_limit_window_order_witness :
    check_rate_limit
      { enabled := true, get := fun _ => .ok (some 12), ttl := fun _ => .ok 30,
        db_ok := false } ⟨[], []⟩ 100 "u" "/api/x/*"
      = { allowed := false, current_count := 12, limit_per_minute := some 10,
          limit_per_hour := some 100, limit_per_day := some 1000,
          reset_at := some 130, window := some "minute" } :=
  (rate_limit_window_order _ _ _ _ _ (some 12) (some 12) (some 12) 30 30 30
    rfl rfl rfl rfl rfl rfl rfl).1 (by decide)

/-- C6: a disabled counter store (no client) and an erroring counter store
both yield `allowed = true` — the rate limiter fails open and never rejects a
request for infrastructure reasons. -/
theorem rate_limit_fails_open (env : RLEnv) (db : RateDb) (now : Nat) (uid ep : String) :
    (env.enabled = false →
      check_rate_limit env db now uid ep =
        { allowed := true, current_count := 0, limit_per_minute := some 999999,
          reason := some "rate_limiting_disabled" })
    ∧ (∀ e, check_rate_limit_body env db now uid ep = .error e →
        (check_rate_limit env db now uid ep).allowed = true) := by
  constructor
  · intro h
    simp [check_rate_limit, h]
  · intro e h
    cases hen : env.enabled <;> simp [check_rate_limit, hen, h]

/-- Witness for C6: a store where every Redis command raises still allows the
request. -/
theorem rate_limit_fails_open_witness :
    (check_rate_limit
      { enabled := true, get := fun _ => .error (), ttl := fun _ => .error (),
        db_ok := true } ⟨[], []⟩ 0 "u" "/api/x/*").allowed = true :=
  (rate_limit_fails_open _ _ _ _ _).2 () rfl

/-- Every failure of the simple login handler carries the one fixed 401
error (helper). -/
theorem login_error_eq (verify : String → String → Bool) (users : List UserRow)
    (email password : String) (now : Nat) (e : HttpError)
    (h : login verify users email password now = .error e) :
    e = { status_code := 401, detail := "Incorrect email or password" } := by
  unfold login at h
  repeat' split at h
  all_goals simp_all

/-- C9: both login handlers answer every credential failure with the same
401 "Incorrect email or password" — unknown email and wrong password are
indistinguishable, so any two failed login attempts produce identical
errors. -/
theorem login_failures_indistinguishable :
    (∀ (verify : String → String → Bool) (users : List UserRow) (email password : String)
        (now : Nat) (e : HttpError),
        login verify users email password now = .error e →
        e = { status_code := 401, detail := "Incorrect email or password" })
    ∧ (∀ (verify : String → String → Bool) (env : TokenEnv) (db : TokenDb)
          (users : List UserRow) (email password : String) (now : Nat) (e : HttpError),
        login_enterprise verify env db users email password now = .error (.http e) →
        e = { status_code := 401, detail := "Incorrect email or password" })
    ∧ (∀ (verify : String → String → Bool) (users₁ users₂ : List UserRow)
          (email₁ email₂ pw₁ pw₂ : String) (now₁ now₂ : Nat) (e₁ e₂ : HttpError),
        login verify users₁ email₁ pw₁ now₁ = .error e₁ →
        login verify users₂ email₂ pw₂ now₂ = .error e₂ →
        e₁ = e₂) := by
  refine ⟨login_error_eq, ?_, ?_⟩
  · intro verify env db users email password now e h
    unfold login_enterprise at h
    repeat' split at h
    all_goals simp_all
  · intro verify users₁ users₂ email₁ email₂ pw₁ pw₂ now₁ now₂ e₁ e₂ h₁ h₂
    rw [login_error_eq verify users₁ email₁ pw₁ now₁ e₁ h₁,
      login_error_eq verify users₂ email₂ pw₂ now₂ e₂ h₂]

/-- Witness for C9: an unknown email and a wrong password at an existing user
yield the same 401 error. -/
theorem login_failures_indistinguishable_witness :
    ∀ e₁ e₂ : HttpError,
      login (fun _ _ => false) [] "a@x" "pw" 0 = .error e₁ →
      login (fun _ _ => false) [⟨"u", "b@x", "h", "free", false⟩] "b@x" "pw" 0 = .error e₂ →
      e₁ = e₂ :=
  fun e₁ e₂ h₁ h₂ =>
    login_failures_indistinguishable.2.2 (fun _ _ => false) [] [⟨"u", "b@x", "h", "free", false⟩]
      "a@x" "b@x" "pw" "pw" 0 0 e₁ e₂ h₁ h₂

/-- C10: `revoke_token` is a no-op returning `false` on undecodable input —
decoding runs before any store write, so both tables are untouched — and any
modelled store exception also yields `false` (the function's return is a plain
boolean; nothing propagates). -/
theorem revoke_token_fail_safe :
    (∀ (env : TokenEnv) (db : TokenDb) (now : Nat) (tok : Jwt) (reason : String),
        decode_refresh_token now tok = none →
        revoke_token env db now tok reason = (false, db))
    ∧ (∀ (env : TokenEnv) (db : TokenDb) (now : Nat) (tok : Jwt) (reason : String),
        env.insert_bl_ok = false ∨ env.update_rt_ok = false →
        (revoke_token env db now tok reason).fst = false) := by
  constructor
  · intro env db now tok reason h
    simp [revoke_token, h]
  · intro env db now tok reason herr
    unfold revoke_token
    cases hd : decode_refresh_token now tok with
    | none => rfl
    | some p =>
      rcases herr with h | h
      · simp [h]
      · cases hi : env.insert_bl_ok <;> simp [h, hi]

/-- Witness for C10: a non-refresh JWT is rejected without any write, and a
raising blacklist insert yields `false`. -/
theorem revoke_token_fail_safe_witness :
    revoke_token ⟨true, true, true, true, true, true⟩ ⟨[], []⟩ 5
        ⟨some "u", 99, none, true⟩ "manual_revoke" = (false, ⟨[], []⟩)
    ∧ (revoke_token ⟨true, true, false, true, true, true⟩ ⟨[], []⟩ 5
        ⟨some "u", 99, some "refresh", true⟩ "manual_revoke").fst = false :=
  ⟨revoke_token_fail_safe.1 _ _ _ _ _ rfl,
   revoke_token_fail_safe.2 _ _ _ _ _ (Or.inl rfl)⟩

/-- Related segments normalize identically: an id-like segment becomes the
`"*"` wildcard on both sides (helper for C7). -/
theorem normalizeSeg_eq_of_related (isU : String → Bool) (a b : String)
    (h : segRelated isU a b = true) : normalizeSeg isU a = normalizeSeg isU b := by
  simp only [segRelated, Bool.or_eq_true, beq_iff_eq, Bool.and_eq_true,
    decide_eq_true_eq] at h
  rcases h with h | ⟨⟨⟨ha, hb⟩, hca⟩, hcb⟩
  · rw [h]
  · have hna : ¬(a ≠ "" ∧ isU a = false ∧ isNumericStr a = false) := by
      rintro ⟨-, h1, h2⟩
      rcases hca with h' | h'
      · rw [h1] at h'; exact Bool.false_ne_true h'
      · rw [h2] at h'; exact Bool.false_ne_true h'
    have hnb : ¬(b ≠ "" ∧ isU b = false ∧ isNumericStr b = false) := by
      rintro ⟨-, h1, h2⟩
      rcases hcb with h' | h'
      · rw [h1] at h'; exact Bool.false_ne_true h'
      · rw [h2] at h'; exact Bool.false_ne_true h'
    unfold normalizeSeg
    rw [if_neg hna, if_neg hnb, if_pos ha, if_pos hb]

/-- Relatedness lifts to the whole normalized segment list (helper for C7). -/
theorem filterMap_normalizeSeg_eq (isU : String → Bool) :
    ∀ l₁ l₂ : List String, segsRelated isU l₁ l₂ = true →
      l₁.filterMap (normalizeSeg isU) = l₂.filterMap (normalizeSeg isU)
  | [], [], _ => rfl
  | x :: xs, y :: ys, h => by
    simp only [segsRelated, Bool.and_eq_true] at h
    simp only [List.filterMap_cons]
    rw [normalizeSeg_eq_of_related isU x y h.1, filterMap_normalizeSeg_eq isU xs ys h.2]
  | [], _ :: _, h => by simp [segsRelated] at h
  | _ :: _, [], h => by simp [segsRelated] at h

/-- C7: two request paths that differ only in UUID or purely-numeric segments
normalize to the same endpoint string, hence map to the same rate-limit
counter key for every window. -/
theorem normalize_endpoint_id_insensitive (is_uuid : String → Bool) (p₁ p₂ : String)
    (uid w : String)
    (hrel : segsRelated is_uuid (splitSlash p₁) (splitSlash p₂) = true)
    (hne : (splitSlash p₁).filterMap (normalizeSeg is_uuid) ≠ []) :
    normalize_endpoint is_uuid p₁ = normalize_endpoint is_uuid p₂
    ∧ get_key uid (normalize_endpoint is_uuid p₁) w
        = get_key uid (normalize_endpoint is_uuid p₂) w := by
  have heq := filterMap_normalizeSeg_eq is_uuid _ _ hrel
  have h₁ : normalize_endpoint is_uuid p₁ =
      "/" ++ String.intercalate "/" ((splitSlash p₁).filterMap (normalizeSeg is_uuid))
        ++ "/*" := by
    unfold normalize_endpoint
    rw [if_pos hne]
  have h₂ : normalize_endpoint is_uuid p₂ =
      "/" ++ String.intercalate "/" ((splitSlash p₂).filterMap (normalizeSeg is_uuid))
        ++ "/*" := by
    unfold normalize_endpoint
    rw [if_pos (heq ▸ hne)]
  refine ⟨?_, ?_⟩ <;> rw [h₁, h₂, heq]

/-- Witness for C7: two distinct UUIDs under `/items/` share one normalized
endpoint and counter key. -/
theorem normalize_endpoint_id_insensitive_witness :
    normalize_endpoint
        (fun s => s == "11111111-1111-1111-1111-111111111111"
          || s == "22222222-2222-2222-2222-222222222222")
        "/items/11111111-1111-1111-1111-111111111111"
      = normalize_endpoint
        (fun s => s == "11111111-1111-1111-1111-111111111111"
          || s == "22222222-2222-2222-2222-222222222222")
        "/items/22222222-2222-2222-2222-222222222222"
    ∧ get_key "u"
        (normalize_endpoint
          (fun s => s == "11111111-1111-1111-1111-111111111111"
            || s == "22222222-2222-2222-2222-222222222222")
          "/items/11111111-1111-1111-1111-111111111111") "minute"
      = get_key "u"
        (normalize_endpoint
          (fun s => s == "11111111-1111-1111-1111-111111111111"
            || s == "22222222-2222-2222-2222-222222222222")
          "/items/22222222-2222-2222-2222-222222222222") "minute" :=
  normalize_endpoint_id_insensitive _ _ _ "u" "minute" (by decide) (by decide)

/-- Indexing helper: a successful lookup bounds the index. -/
theorem get?_some_lt {α : Type} {l : List α} {i : Nat} {a : α}
    (h : l.get? i = some a) : i < l.length := by
  by_contra hc
  rw [List.get?_eq_none.mpr (Nat.le_of_not_lt hc)] at h
  exact Option.noConfusion h

/-- Indexing helper: an in-bounds index has a value. -/
theorem get?_exists_of_lt {α : Type} {l : List α} {i : Nat} (h : i < l.length) :
    ∃ a, l.get? i = some a := by
  cases hg : l.get? i with
  | none => rw [List.get?_eq_none] at hg; omega
  | some a => exact ⟨a, rfl⟩

theorem preservesRevocation_refl (l : List RefreshRow) : preservesRevocation l l :=
  ⟨le_refl _, fun _ _ _ h1 h2 hrev => by rw [h1] at h2; cases h2; exact hrev⟩

theorem preservesRevocation_trans {l₁ l₂ l₃ : List RefreshRow}
    (h12 : preservesRevocation l₁ l₂) (h23 : preservesRevocation l₂ l₃) :
    preservesRevocation l₁ l₃ := by
  obtain ⟨hlen12, h12⟩ := h12
  obtain ⟨hlen23, h23⟩ := h23
  refine ⟨le_trans hlen12 hlen23, ?_⟩
  intro i r r' h1 h3 hrev
  obtain ⟨m, hm⟩ := get?_exists_of_lt (lt_of_lt_of_le (get?_some_lt h1) hlen12)
  exact h23 i m r' hm h3 (h12 i r m h1 hm hrev)

theorem preservesRevocation_append (l l₂ : List RefreshRow) :
    preservesRevocation l (l ++ l₂) := by
  refine ⟨by simp, ?_⟩
  intro i r r' h1 h2 hrev
  rw [List.get?_append (get?_some_lt h1), h1] at h2
  cases h2
  exact hrev

theorem preservesRevocation_map (l : List RefreshRow) (g : RefreshRow → RefreshRow)
    (hg : ∀ r, r.revoked_at ≠ none → (g r).revoked_at ≠ none) :
    preservesRevocation l (l.map g) := by
  refine ⟨by simp, ?_⟩
  intro i r r' h1 h2 hrev
  rw [List.get?_map, h1, Option.map_some'] at h2
  cases h2
  exact hg r hrev

/-- The rotation / revocation update marks every hash-matching row and leaves
the rest untouched, so it never un-revokes a row. -/
theorem revokeByHash_preserves (now : Nat) (h : Jwt) (l : List RefreshRow) :
    preservesRevocation l (revokeByHash now h l) := by
  apply preservesRevocation_map
  intro r hrev
  by_cases hc : r.token_hash = h <;> simp [hc, hrev]

/-- After the update, every row keyed by the rotated hash is revoked. -/
theorem revokeByHash_revoked (now : Nat) (h : Jwt) (l : List RefreshRow) :
    ∀ r ∈ revokeByHash now h l, r.token_hash = h → r.revoked_at ≠ none := by
  intro r hr hhash
  simp only [revokeByHash, List.mem_map] at hr
  obtain ⟨r', _, heq⟩ := hr
  by_cases hc : r'.token_hash = h
  · rw [if_pos hc] at heq
    rw [← heq]
    simp
  · rw [if_neg hc] at heq
    rw [← heq] at hhash
    exact absurd hhash hc

/-- The active-row lookup finds nothing under a hash that was just revoked. -/
theorem findActiveRow_revokeByHash (now : Nat) (h : Jwt) (l : List RefreshRow) :
    findActiveRow (revokeByHash now h l) h = none := by
  rw [findActiveRow, List.find?_eq_none]
  intro r hr
  simp only [decide_eq_true_eq, not_and]
  intro hhash hrev
  exact revokeByHash_revoked now h l r hr hhash hrev

theorem create_token_pair_preserves (env : TokenEnv) (db : TokenDb) (now : Nat)
    (uid : String) (ip ua dev : Option String) :
    preservesRevocation db.refresh_tokens
      (create_token_pair env db now uid ip ua dev).snd.refresh_tokens := by
  cases hi : env.insert_rt_ok
  · simp only [create_token_pair, hi, Bool.false_eq_true, if_false]
    exact preservesRevocation_refl _
  · simp only [create_token_pair, hi, if_true]
    exact preservesRevocation_append _ _

theorem revoke_all_user_tokens_preserves (env : TokenEnv) (db : TokenDb) (now : Nat)
    (uid : String) :
    preservesRevocation db.refresh_tokens
      (revoke_all_user_tokens env db now uid).snd.refresh_tokens := by
  cases hu : env.update_rt_ok
  · simp only [revoke_all_user_tokens, hu, if_true, Bool.false_eq_true]
    exact preservesRevocation_refl _
  · simp only [revoke_all_user_tokens, hu, Bool.true_eq_false, if_false]
    apply preservesRevocation_map
    intro r hrev
    by_cases hc : (r.user_id = uid ∧ r.revoked_at = none) <;> simp [hc, hrev]

theorem revoke_token_preserves (env : TokenEnv) (db : TokenDb) (now : Nat)
    (tok : Jwt) (reason : String) :
    preservesRevocation db.refresh_tokens
      (revoke_token env db now tok reason).snd.refresh_tokens := by
  unfold revoke_token
  cases hd : decode_refresh_token now tok
  · exact preservesRevocation_refl _
  · cases hi : env.insert_bl_ok
    · simp only [hi, Bool.false_eq_true]
      exact preservesRevocation_refl _
    · cases hu : env.update_rt_ok
      · simp only [hi, hu, Bool.false_eq_true, Bool.true_eq_false]
        exact preservesRevocation_refl _
      · simp only [hi, hu, Bool.false_eq_true, Bool.true_eq_false]
        exact revokeByHash_preserves _ _ _

/-- Exhaustive outcome analysis of `refresh_access_token`: every failing run
leaves the `refresh_tokens` table unchanged or (update raised mid-rotation)
with just the fresh row appended; every successful run decoded the token to
itself and ends with the old hash revoked across the appended table. -/
theorem refresh_cases (env : TokenEnv) (db : TokenDb) (now : Nat) (tok : Jwt)
    (ip ua : Option String) :
    (exceptIsOk (refresh_access_token env db now tok ip ua).fst = false
      ∧ ((refresh_access_token env db now tok ip ua).snd.refresh_tokens = db.refresh_tokens
         ∨ ∃ row : RefreshRow, row.revoked_at = none ∧
             (refresh_access_token env db now tok ip ua).snd.refresh_tokens
               = db.refresh_tokens ++ [row]))
    ∨ (exceptIsOk (refresh_access_token env db now tok ip ua).fst = true
       ∧ decode_refresh_token now tok = some tok
       ∧ ∃ row : RefreshRow,
           (refresh_access_token env db now tok ip ua).snd.refresh_tokens
             = revokeByHash now (hash_token tok) (db.refresh_tokens ++ [row])) := by
  cases hd : decode_refresh_token now tok with
  | none =>
    refine Or.inl ⟨?_, Or.inl ?_⟩ <;> simp [refresh_access_token, hd, exceptIsOk]
  | some payload =>
    have hpt : payload = tok := by
      unfold decode_refresh_token at hd
      split at hd
      · exact (Option.some.inj hd).symm
      · exact Option.noConfusion hd
    subst hpt
    obtain ⟨uid, huid⟩ : ∃ u, payload.sub = some u := by
      unfold decode_refresh_token at hd
      split at hd
      · next hc => exact Option.ne_none_iff_exists'.mp hc.2.2.2
      · exact Option.noConfusion hd
    simp only [refresh_access_token, hd, huid]
    by_cases hb : is_token_blacklisted env db now (hash_token payload) = true
    · simp only [hb, if_true]
      exact Or.inl ⟨rfl, Or.inl trivial⟩
    · simp only [hb, if_false]
      by_cases hsel : env.select_rt_ok = false
      · simp only [hsel, if_true]
        exact Or.inl ⟨rfl, Or.inl rfl⟩
      · simp only [hsel, if_false]
        cases hfa : findActiveRow db.refresh_tokens (hash_token payload) with
        | none =>
          simp only [hfa]
          exact Or.inl ⟨rfl, Or.inl rfl⟩
        | some stored =>
          simp only [hfa]
          by_cases hexp : stored.expires_at < now
          · simp only [hexp, if_true]
            exact Or.inl ⟨rfl, Or.inl rfl⟩
          · simp only [hexp, if_false]
            cases hins : env.insert_rt_ok
            · simp only [create_token_pair, hins, Bool.false_eq_true, if_false]
              exact Or.inl ⟨rfl, Or.inl rfl⟩
            · simp only [create_token_pair, hins, if_true]
              cases hupd : env.update_rt_ok
              · simp only [hupd, Bool.false_eq_true, if_false]
                exact Or.inl ⟨rfl, Or.inr ⟨_, rfl, rfl⟩⟩
              · simp only [hupd, if_true]
                exact Or.inr ⟨rfl, trivial, _, rfl⟩

theorem refresh_access_token_preserves (env : TokenEnv) (db : TokenDb) (now : Nat)
    (tok : Jwt) (ip ua : Option String) :
    preservesRevocation db.refresh_tokens
      (refresh_access_token env db now tok ip ua).snd.refresh_tokens := by
  rcases refresh_cases env db now tok ip ua with
    ⟨-, heq | ⟨row, -, heq⟩⟩ | ⟨-, -, row, heq⟩
  · rw [heq]
    exact preservesRevocation_refl _
  · rw [heq]
    exact preservesRevocation_append _ _
  · rw [heq]
    exact preservesRevocation_trans (preservesRevocation_append _ _)
      (revokeByHash_preserves _ _ _)

/-- C1: rotation is single-use.  After one successful
`refresh_access_token(R)`: every stored row keyed by R's hash has
`revoked_at` set; a second call with the same R against the resulting store
fails with the revoked or unknown/revoked-token error even though R's claimed
expiry has not passed; and no token-service operation ever transitions a
revoked row back to active. -/
theorem refresh_rotation_single_use (env envTwo : TokenEnv) (db : TokenDb)
    (now nowTwo : Nat) (tok : Jwt) (ip ua ipTwo uaTwo : Option String)
    (hok : exceptIsOk (refresh_access_token env db now tok ip ua).fst = true)
    (hclaim : nowTwo < tok.exp)
    (hsel : envTwo.select_rt_ok = true) :
    (∀ r ∈ (refresh_access_token env db now tok ip ua).snd.refresh_tokens,
        r.token_hash = hash_token tok → r.revoked_at ≠ none)
    ∧ ((refresh_access_token envTwo (refresh_access_token env db now tok ip ua).snd
          nowTwo tok ipTwo uaTwo).fst = .error .revokedToken
       ∨ (refresh_access_token envTwo (refresh_access_token env db now tok ip ua).snd
          nowTwo tok ipTwo uaTwo).fst = .error .unknownToken)
    ∧ (∀ (e : TokenEnv) (d : TokenDb) (n : Nat) (t : Jwt) (i u : Option String),
        preservesRevocation d.refresh_tokens
          (refresh_access_token e d n t i u).snd.refresh_tokens)
    ∧ (∀ (e : TokenEnv) (d : TokenDb) (n : Nat) (t : Jwt) (s : String),
        preservesRevocation d.refresh_tokens (revoke_token e d n t s).snd.refresh_tokens)
    ∧ (∀ (e : TokenEnv) (d : TokenDb) (n : Nat) (s : String),
        preservesRevocation d.refresh_tokens
          (revoke_all_user_tokens e d n s).snd.refresh_tokens)
    ∧ (∀ (e : TokenEnv) (d : TokenDb) (n : Nat) (s : String) (i u v : Option String),
        preservesRevocation d.refresh_tokens
          (create_token_pair e d n s i u v).snd.refresh_tokens) := by
  obtain ⟨hf, -⟩ | ⟨-, hdec, row, hrows⟩ := refresh_cases env db now tok ip ua
  · rw [hok] at hf
    exact Bool.noConfusion hf
  have hrev : ∀ r ∈ (refresh_access_token env db now tok ip ua).snd.refresh_tokens,
      r.token_hash = hash_token tok → r.revoked_at ≠ none := by
    rw [hrows]
    exact revokeByHash_revoked _ _ _
  have hd2 : decode_refresh_token nowTwo tok = some tok := by
    unfold decode_refresh_token at hdec ⊢
    split at hdec
    · next hc => exact if_pos ⟨hc.1, hclaim, hc.2.2.1, hc.2.2.2⟩
    · exact Option.noConfusion hdec
  obtain ⟨uid, huid⟩ : ∃ u, tok.sub = some u := by
    unfold decode_refresh_token at hdec
    split at hdec
    · next hc => exact Option.ne_none_iff_exists'.mp hc.2.2.2
    · exact Option.noConfusion hdec
  refine ⟨hrev, ?_, refresh_access_token_preserves, revoke_token_preserves,
    revoke_all_user_tokens_preserves, create_token_pair_preserves⟩
  set db2 := (refresh_access_token env db now tok ip ua).snd with hdb2
  by_cases hb2 : is_token_blacklisted envTwo db2 nowTwo (hash_token tok) = true
  · left
    simp only [refresh_access_token, hd2, huid, hb2, if_true]
  · right
    have hfind : findActiveRow db2.refresh_tokens (hash_token tok) = none := by
      rw [hrows]
      exact findActiveRow_revokeByHash _ _ _
    simp only [refresh_access_token, hd2, huid, hb2, if_false, hsel,
      Bool.true_eq_false, Bool.false_eq_true, hfind]

/-- Witness for C1: a concrete successful rotation, after which replaying the
same refresh token is rejected. -/
theorem refresh_rotation_single_use_witness :
    (refresh_access_token ⟨true, true, true, true, true, true⟩
        (refresh_access_token ⟨true, true, true, true, true, true⟩
          { refresh_tokens :=
              [⟨"u1", ⟨some "u1", 1000, some "refresh", true⟩, 2000, none, none, none, none⟩],
            token_blacklist := [] }
          10 ⟨some "u1", 1000, some "refresh", true⟩ none none).snd
        20 ⟨some "u1", 1000, some "refresh", true⟩ none none).fst = .error .revokedToken
    ∨ (refresh_access_token ⟨true, true, true, true, true, true⟩
        (refresh_access_token ⟨true, true, true, true, true, true⟩
          { refresh_tokens :=
              [⟨"u1", ⟨some "u1", 1000, some "refresh", true⟩, 2000, none, none, none, none⟩],
            token_blacklist := [] }
          10 ⟨some "u1", 1000, some "refresh", true⟩ none none).snd
        20 ⟨some "u1", 1000, some "refresh", true⟩ none none).fst = .error .unknownToken :=
  (refresh_rotation_single_use ⟨true, true, true, true, true, true⟩
    ⟨true, true, true, true, true, true⟩
    { refresh_tokens :=
        [⟨"u1", ⟨some "u1", 1000, some "refresh", true⟩, 2000, none, none, none, none⟩],
      token_blacklist := [] }
    10 20 ⟨some "u1", 1000, some "refresh", true⟩ none none none none
    (by decide) (by decide) rfl).2.1

theorem get_key_length (uid ep w : String) :
    (get_key uid ep w).length = 12 + w.length + uid.length + ep.length := by
  have h1 : "ratelimit:".length = 10 := rfl
  have h2 : ":".length = 1 := rfl
  simp [get_key, String.length_append, h1, h2]
  omega

/-- Keys of different-length window names never collide (the three window
names have pairwise different lengths). -/
theorem get_key_ne_of_window_length_ne (uid ep : String) {w₁ w₂ : String}
    (hw : w₁.length ≠ w₂.length) :
    get_key uid ep w₁ ≠ get_key uid ep w₂ := by
  intro h
  have hl := congrArg String.length h
  rw [get_key_length, get_key_length] at hl
  omega

theorem storeGetD_incr_self (s : RedisStore) (k : String) :
    storeGetD (storeIncr s k) k = storeGetD s k + 1 := by
  induction s with
  | nil => simp [storeIncr, storeGet, storeGetD]
  | cons p rest ih =>
    obtain ⟨k', v⟩ := p
    by_cases hk : k' = k
    · subst hk
      simp [storeIncr, storeGet, storeGetD]
    · simp only [storeIncr, if_neg hk]
      simp only [storeGetD, storeGet, if_neg hk] at ih ⊢
      exact ih

theorem storeGetD_incr_other (s : RedisStore) (k k' : String) (h : ¬k' = k) :
    storeGetD (storeIncr s k) k' = storeGetD s k' := by
  have hsymm : ¬k = k' := fun he => h he.symm
  induction s with
  | nil => simp [storeIncr, storeGet, storeGetD, hsymm]
  | cons p rest ih =>
    obtain ⟨k₀, v⟩ := p
    by_cases hk : k₀ = k
    · subst hk
      have hne : ¬(k₀ = k') := fun he => h he.symm
      simp [storeIncr, storeGet, storeGetD, hne]
    · simp only [storeIncr, if_neg hk]
      by_cases hk' : k₀ = k'
      · simp [storeGetD, storeGet, hk']
      · simp only [storeGetD, storeGet, if_neg hk'] at ih ⊢
        exact ih

theorem storeGet_del (s : RedisStore) (k k' : String) :
    storeGet (storeDel s k) k' = if k' = k then none else storeGet s k' := by
  induction s with
  | nil => simp [storeDel, storeGet]
  | cons p rest ih =>
    obtain ⟨k₀, v⟩ := p
    by_cases hk : k₀ = k
    · have hdel : storeDel ((k₀, v) :: rest) k = storeDel rest k := by
        simp [storeDel, List.filter, hk]
      rw [hdel, ih]
      by_cases hk' : k' = k
      · simp [hk']
      · have hne : ¬(k₀ = k') := by rw [hk]; exact fun he => hk' he.symm
        simp [storeGet, hne, hk']
    · have hdel : storeDel ((k₀, v) :: rest) k = (k₀, v) :: storeDel rest k := by
        simp [storeDel, List.filter, hk]
      rw [hdel]
      by_cases hk₀ : k₀ = k'
      · subst hk₀
        simp [storeGet, hk]
      · simp only [storeGet, if_neg hk₀]
        exact ih

theorem storeGetD_del (s : RedisStore) (k k' : String) :
    storeGetD (storeDel s k) k' = if k' = k then 0 else storeGetD s k' := by
  simp only [storeGetD, storeGet_del]
  split <;> rfl

/-- Store-effect analysis of one middleware dispatch: either the counter store
is untouched (skip, fail-open with unreachable store, or the 429 raised before
`increment_rate_limit`), or the request was accepted with all three counters
strictly below their limits and each gets exactly one increment. -/
theorem dispatch_cases (isU : String → Bool) (mw svc up dbOk logOk : Bool) (db : RateDb)
    (ttlv : Int) (s : RedisStore) (now : Nat) (path : String) (user : Option String) :
    (dispatch isU mw svc up dbOk logOk db ttlv s now path user).snd = s
    ∨ ∃ uid, user = some uid
        ∧ (∀ r, (dispatch isU mw svc up dbOk logOk db ttlv s now path user).fst ≠ .rejected r)
        ∧ storeGetD s (get_key uid (normalize_endpoint isU path) "minute")
            < (get_plan_limits dbOk db uid (normalize_endpoint isU path)).per_minute
        ∧ storeGetD s (get_key uid (normalize_endpoint isU path) "hour")
            < (get_plan_limits dbOk db uid (normalize_endpoint isU path)).per_hour
        ∧ storeGetD s (get_key uid (normalize_endpoint isU path) "day")
            < (get_plan_limits dbOk db uid (normalize_endpoint isU path)).per_day
        ∧ (dispatch isU mw svc up dbOk logOk db ttlv s now path user).snd
            = storeIncr (storeIncr (storeIncr s
                (get_key uid (normalize_endpoint isU path) "minute"))
                (get_key uid (normalize_endpoint isU path) "hour"))
                (get_key uid (normalize_endpoint isU path) "day") := by
  by_cases h1 : mw = false ∨ svc = false
  · left
    simp [dispatch, h1]
  have hsvc : svc = true := by
    rcases not_or.mp h1 with ⟨-, hs⟩
    cases svc with
    | false => exact absurd rfl hs
    | true => rfl
  subst hsvc
  have hmw : mw = true := by
    rcases not_or.mp h1 with ⟨hm, -⟩
    cases mw with
    | false => exact absurd rfl hm
    | true => rfl
  subst hmw
  by_cases h2 : strStartsWith path "/api/" = false
  · left
    simp [dispatch, h1, h2]
  by_cases h3 : path ∈ bypass_routes
  · left
    simp [dispatch, h1, h2, h3]
  cases user with
  | none =>
    left
    simp [dispatch, h1, h2, h3]
  | some uid =>
    set ep := normalize_endpoint isU path with hep
    by_cases hall : (check_rate_limit (envOfStore up dbOk ttlv s) db now uid ep).allowed = false
    · left
      by_cases hlog : logOk = false <;>
        simp [dispatch, h1, h2, h3, ← hep, hall, hlog]
    · cases hup : up with
      | false =>
        left
        rw [hup] at hall
        simp [dispatch, h1, h2, h3, ← hep, hall, hup, increment_rate_limit]
      | true =>
        rw [hup] at hall
        right
        have hW := rate_limit_window_order (envOfStore true dbOk ttlv s) db now uid ep
          (storeGet s (get_key uid ep "minute")) (storeGet s (get_key uid ep "hour"))
          (storeGet s (get_key uid ep "day")) ttlv ttlv ttlv
          rfl rfl rfl rfl rfl rfl rfl
        have hcm : storeGetD s (get_key uid ep "minute")
            < (get_plan_limits dbOk db uid ep).per_minute := by
          by_contra hge
          push_neg at hge
          have hc := hW.1 hge
          rw [hc] at hall
          exact hall rfl
        have hch : storeGetD s (get_key uid ep "hour")
            < (get_plan_limits dbOk db uid ep).per_hour := by
          by_contra hge
          push_neg at hge
          have hc := hW.2.1 hcm hge
          rw [hc] at hall
          exact hall rfl
        have hcd : storeGetD s (get_key uid ep "day")
            < (get_plan_limits dbOk db uid ep).per_day := by
          by_contra hge
          push_neg at hge
          have hc := hW.2.2.1 hcm hch hge
          rw [hc] at hall
          exact hall rfl
        refine ⟨uid, rfl, ?_, hcm, hch, hcd, ?_⟩
        · intro r
          simp [dispatch, h1, h2, h3, ← hep, hall]
        · simp [dispatch, h1, h2, h3, ← hep, hall, increment_rate_limit]

/-- Counter invariant: along any reachable history of one (user, endpoint)
request shape, each stored window counter never exceeds its configured limit
(counters count only accepted requests). -/
theorem rl_counter_invariant (isU : String → Bool) (dbOk : Bool) (db : RateDb)
    (path uid : String) {s : RedisStore}
    (h : RLReachable isU dbOk db path uid s) :
    storeGetD s (get_key uid (normalize_endpoint isU path) "minute")
        ≤ (get_plan_limits dbOk db uid (normalize_endpoint isU path)).per_minute
    ∧ storeGetD s (get_key uid (normalize_endpoint isU path) "hour")
        ≤ (get_plan_limits dbOk db uid (normalize_endpoint isU path)).per_hour
    ∧ storeGetD s (get_key uid (normalize_endpoint isU path) "day")
        ≤ (get_plan_limits dbOk db uid (normalize_endpoint isU path)).per_day := by
  induction h with
  | init => exact ⟨Nat.zero_le _, Nat.zero_le _, Nat.zero_le _⟩
  | step s' mw svc up logOk ttlv now hprev ih =>
    rcases dispatch_cases isU mw svc up dbOk logOk db ttlv s' now path (some uid) with
      hsnd | ⟨uid', huid, -, hm, hh, hd, hsnd⟩
    · rw [hsnd]
      exact ih
    · cases huid
      rw [hsnd]
      have hmin_hour : ¬get_key uid (normalize_endpoint isU path) "minute"
          = get_key uid (normalize_endpoint isU path) "hour" :=
        get_key_ne_of_window_length_ne _ _ (by decide)
      have hmin_day : ¬get_key uid (normalize_endpoint isU path) "minute"
          = get_key uid (normalize_endpoint isU path) "day" :=
        get_key_ne_of_window_length_ne _ _ (by decide)
      have hhour_day : ¬get_key uid (normalize_endpoint isU path) "hour"
          = get_key uid (normalize_endpoint isU path) "day" :=
        get_key_ne_of_window_length_ne _ _ (by decide)
      have hhour_min : ¬get_key uid (normalize_endpoint isU path) "hour"
          = get_key uid (normalize_endpoint isU path) "minute" :=
        fun he => hmin_hour he.symm
      have hday_min : ¬get_key uid (normalize_endpoint isU path) "day"
          = get_key uid (normalize_endpoint isU path) "minute" :=
        fun he => hmin_day he.symm
      have hday_hour : ¬get_key uid (normalize_endpoint isU path) "day"
          = get_key uid (normalize_endpoint isU path) "hour" :=
        fun he => hhour_day he.symm
      refine ⟨?_, ?_, ?_⟩
      · rw [storeGetD_incr_other _ _ _ hmin_day, storeGetD_incr_other _ _ _ hmin_hour,
          storeGetD_incr_self]
        omega
      · rw [storeGetD_incr_other _ _ _ hhour_day, storeGetD_incr_self,
          storeGetD_incr_other _ _ _ hhour_min]
        omega
      · rw [storeGetD_incr_self, storeGetD_incr_other _ _ _ hday_hour,
          storeGetD_incr_other _ _ _ hday_min]
        omega
  | expire s' k hprev ih =>
    obtain ⟨i1, i2, i3⟩ := ih
    refine ⟨?_, ?_, ?_⟩ <;> rw [storeGetD_del] <;> split
    · exact Nat.zero_le _
    · exact i1
    · exact Nat.zero_le _
    · exact i2
    · exact Nat.zero_le _
    · exact i3

/-- C8: on any reachable counter history, a dispatch whose outcome is the 429
rejection leaves the counter store unchanged (`increment_rate_limit` is never
reached), counters count only accepted requests, and at the instant of
rejection each stored window counter is at most its configured limit plus
one. -/
theorem rejected_request_not_counted (isU : String → Bool)
    (mw svc up dbOk logOk : Bool) (db : RateDb) (path uid : String)
    (ttlv : Int) (now : Nat) (s : RedisStore) (r : RateLimitResult)
    (hreach : RLReachable isU dbOk db path uid s)
    (hrej : (dispatch isU mw svc up dbOk logOk db ttlv s now path (some uid)).fst
        = .rejected r) :
    (dispatch isU mw svc up dbOk logOk db ttlv s now path (some uid)).snd = s
    ∧ storeGetD s (get_key uid (normalize_endpoint isU path) "minute")
        ≤ (get_plan_limits dbOk db uid (normalize_endpoint isU path)).per_minute + 1
    ∧ storeGetD s (get_key uid (normalize_endpoint isU path) "hour")
        ≤ (get_plan_limits dbOk db uid (normalize_endpoint isU path)).per_hour + 1
    ∧ storeGetD s (get_key uid (normalize_endpoint isU path) "day")
        ≤ (get_plan_limits dbOk db uid (normalize_endpoint isU path)).per_day + 1 := by
  obtain ⟨i1, i2, i3⟩ := rl_counter_invariant isU dbOk db path uid hreach
  rcases dispatch_cases isU mw svc up dbOk logOk db ttlv s now path (some uid) with
    hsnd | ⟨uid', -, hnrej, -⟩
  · exact ⟨hsnd, Nat.le_succ_of_le i1, Nat.le_succ_of_le i2, Nat.le_succ_of_le i3⟩
  · exact absurd hrej (hnrej r)

/-- Witness for C8: under a `1/minute` plan, the second request is rejected
and the counters are exactly as the single accepted request left them. -/
theorem rejected_request_not_counted_witness :
    (dispatch (fun _ => false) true true true true true
        ⟨[⟨"u", "e", "h", "free", false⟩], [⟨"free", none, "/api/*", 1, 100, 1000⟩]⟩ 30
        (dispatch (fun _ => false) true true true true true
          ⟨[⟨"u", "e", "h", "free", false⟩], [⟨"free", none, "/api/*", 1, 100, 1000⟩]⟩ 30
          [] 5 "/api/clones" (some "u")).snd
        6 "/api/clones" (some "u")).snd
      = (dispatch (fun _ => false) true true true true true
          ⟨[⟨"u", "e", "h", "free", false⟩], [⟨"free", none, "/api/*", 1, 100, 1000⟩]⟩ 30
          [] 5 "/api/clones" (some "u")).snd :=
  (rejected_request_not_counted (fun _ => false) true true true true true
    ⟨[⟨"u", "e", "h", "free", false⟩], [⟨"free", none, "/api/*", 1, 100, 1000⟩]⟩
    "/api/clones" "u" 30 6
    (dispatch (fun _ => false) true true true true true
      ⟨[⟨"u", "e", "h", "free", false⟩], [⟨"free", none, "/api/*", 1, 100, 1000⟩]⟩ 30
      [] 5 "/api/clones" (some "u")).snd
    { allowed := false, current_count := 1, limit_per_minute := some 1,
      limit_per_hour := some 100, limit_per_day := some 1000,
      reset_at := some 36, window := some "minute", reason := none }
    (RLReachable.step [] true true true true 30 5 RLReachable.init)
    (by decide)).1
